import Mathlib

set_option autoImplicit false

/-!
Verification of the Bot Framework channel adapter
(rasa/core/channels/botframework.py) against its specification.

The Python module is shallowly embedded: JSON values are an inductive type,
Python dicts are association lists, the shared mutable token cache is passed
as explicit state, and network I/O is recorded as a list of issued requests
together with an injected response value.
-/

/-- JSON values, as produced by parsing a request body with json.loads.
Numbers are modelled as integers (the payloads this channel handles carry
no fractional numbers). -/
inductive Json where
  | null : Json
  | bool : Bool → Json
  | num : Int → Json
  | str : String → Json
  | arr : List Json → Json
  | obj : List (String × Json) → Json

/-- A Python dict with string keys holding JSON values, in insertion order. -/
abbrev Dict := List (String × Json)

/-- First value stored under a key, as Python dict lookup (dicts built by
json.loads never hold a key twice). -/
def dlookup (k : String) : Dict → Option Json
  | [] => none
  | kv :: rest => if kv.1 = k then some kv.2 else dlookup k rest

/-- Python subscript d[k]: the stored value, or an exception (none) when the
value is not a dict or the key is absent. -/
def pyGetItem (j : Json) (k : String) : Option Json :=
  match j with
  | .obj kvs => dlookup k kvs
  | _ => none

/-- Python d.get(k): the stored value, or None when absent. Only reached in
the source once the value is known to be a dict. -/
def pyGet (j : Json) (k : String) : Json :=
  (pyGetItem j k).getD Json.null

/-- Python truthiness of a JSON-decoded value. -/
def truthy : Json → Bool
  | .null => false
  | .bool b => b
  | .num n => n != 0
  | .str s => s != ""
  | .arr xs => !xs.isEmpty
  | .obj kvs => !kvs.isEmpty

/-- The nested lookup postdata["from"]["id"] used for the sender id;
none models the exception raised when either step fails. -/
def fromId (pd : Json) : Option Json :=
  match pyGetItem pd "from" with
  | none => none
  | some f => pyGetItem f "id"

/-- Hexadecimal digit, lower case, as json.dumps prints escapes. -/
def hexDigit (n : Nat) : Char :=
  if n < 10 then Char.ofNat (48 + n) else Char.ofNat (87 + n)

/-- Four hexadecimal digits of a code unit. -/
def hex4 (n : Nat) : String :=
  String.mk [hexDigit (n / 4096 % 16), hexDigit (n / 256 % 16),
             hexDigit (n / 16 % 16), hexDigit (n % 16)]

/-- Escaping of one character inside a JSON string literal, following
json.dumps with its default ensure_ascii=True: the two-character escapes
for quote, backslash and the usual control characters, \uXXXX for other
characters outside the printable ASCII range, surrogate pairs beyond the
basic multilingual plane. -/
def escChar (c : Char) : String :=
  if c = Char.ofNat 34 then "\\\""
  else if c = Char.ofNat 92 then "\\\\"
  else if c.toNat = 10 then "\\n"
  else if c.toNat = 13 then "\\r"
  else if c.toNat = 9 then "\\t"
  else if c.toNat = 8 then "\\b"
  else if c.toNat = 12 then "\\f"
  else if c.toNat < 32 then "\\u" ++ hex4 c.toNat
  else if c.toNat < 127 then String.singleton c
  else if c.toNat ≤ 65535 then "\\u" ++ hex4 c.toNat
  else
    "\\u" ++ hex4 (55296 + (c.toNat - 65536) / 1024) ++
    "\\u" ++ hex4 (56320 + (c.toNat - 65536) % 1024)

/-- JSON string literal serialization as json.dumps renders it. -/
def escString (s : String) : String :=
  "\"" ++ String.join (s.data.map escChar) ++ "\""

mutual

/-- Serialization of a JSON value exactly as json.dumps with default
arguments: item separator comma-space, key separator colon-space. -/
def dumps : Json → String
  | .null => "null"
  | .bool true => "true"
  | .bool false => "false"
  | .num n => toString n
  | .str s => escString s
  | .arr xs => "[" ++ dumpsArr xs ++ "]"
  | .obj kvs => "\x7b" ++ dumpsObj kvs ++ "\x7d"

/-- Comma-space separated serialization of array elements. -/
def dumpsArr : List Json → String
  | [] => ""
  | [x] => dumps x
  | x :: y :: xs => dumps x ++ ", " ++ dumpsArr (y :: xs)

/-- Comma-space separated serialization of object entries. -/
def dumpsObj : List (String × Json) → String
  | [] => ""
  | [(k, v)] => escString k ++ ": " ++ dumps v
  | (k, v) :: kv :: kvs => escString k ++ ": " ++ dumps v ++ ", " ++ dumpsObj (kv :: kvs)

end

/-! ## Token provider (BotFramework class-level token cache)

The class attributes token_expiration_date and headers are the shared
mutable state; datetime values are modelled as integers (a timeline in
arbitrary units). The POST to the Microsoft identity endpoint is recorded
as a TokenRequest value, and the response of the endpoint is injected as a
TokenResponse argument. Two clock readings are passed in: checkNow for the
expiry comparison at entry and issueNow for the reading taken after the
endpoint answered, matching the two datetime.datetime.now() calls in the
source. -/

def MICROSOFT_OAUTH2_URL : String := "https://login.microsoftonline.com"

def MICROSOFT_OAUTH2_PATH : String := "botframework.com/oauth2/v2.0/token"

/-- Shared class-level credential state of BotFramework. -/
structure TokenState where
  token_expiration_date : Int
  headers : Option (List (String × String))
deriving DecidableEq, Repr

/-- One recorded POST to the token endpoint with its form fields. -/
structure TokenRequest where
  uri : String
  client_id : String
  client_secret : String
  grant_type : String
  scope : String
deriving DecidableEq, Repr

/-- Injected behaviour of the token endpoint for one call: ok models the
requests library attribute response.ok, and the two data fields are the
parsed access_token and expires_in values read on the ok path. -/
structure TokenResponse where
  ok : Bool
  access_token : String
  expires_in : Int
deriving DecidableEq, Repr

/-- Observable outcome of one call to the private header accessor: the
returned value (none models returning Python None), the class state after
the call, the network calls issued, and whether the error log line ran. -/
structure GetHeadersResult where
  ret : Option (List (String × String))
  st : TokenState
  calls : List TokenRequest
  errorLogged : Bool
deriving DecidableEq, Repr

/-- Embedding of BotFramework._get_headers. -/
def get_headers (app_id app_password : String) (st : TokenState)
    (checkNow issueNow : Int) (resp : TokenResponse) : GetHeadersResult :=
  if st.token_expiration_date < checkNow then
    let req : TokenRequest :=
      { uri := MICROSOFT_OAUTH2_URL ++ "/" ++ MICROSOFT_OAUTH2_PATH
        client_id := app_id
        client_secret := app_password
        grant_type := "client_credentials"
        scope := "https://api.botframework.com/.default" }
    if resp.ok then
      let hs := [("content-type", "application/json"),
                 ("Authorization", "Bearer " ++ resp.access_token)]
      { ret := some hs
        st := { token_expiration_date := issueNow + resp.expires_in, headers := some hs }
        calls := [req]
        errorLogged := false }
    else
      { ret := none, st := st, calls := [req], errorLogged := true }
  else
    { ret := st.headers, st := st, calls := [], errorLogged := false }

/-! ## Inbound webhook (BotFrameworkInput.blueprint, POST /webhook)

The handler is embedded as a function of the parsed request body. Every
Python exception site (subscript on a missing key or on a non-dict value)
is a none branch; the try block of the source catches all of them, logs,
and still answers 200 success. The external backend callback
on_new_message is injected as a predicate telling whether it raises; the
dispatched field records the message it was invoked with, none when it was
never invoked. -/

/-- Outbound channel instance as built by BotFramework.__init__ from an
inbound activity: the credential pair plus the conversation, bot identity
and service url taken from the activity. The source also precomputes
global_uri by appending v3/ to the service url; no claim depends on that
string, so the raw constructor argument is stored. -/
structure OutChannel where
  app_id : String
  app_password : String
  conversation : Json
  bot : Json
  service_url : Json

/-- Modelled from the spec: NormalizedInboundMessage of section 3 (the
UserMessage class lives outside this repository slice). It records the
constructor arguments the webhook passes: text, the output channel bound
to the conversation, the sender id, the input channel name, and optional
metadata. -/
structure UserMessage where
  text : Json
  output_channel : OutChannel
  sender_id : Json
  input_channel : String
  metadata : Option Json

/-- Observable outcome of one webhook request: HTTP status and body,
the outbound channel built (if reached), the message handed to
on_new_message (if reached), and which log lines ran. -/
structure WebhookOutcome where
  status : Nat
  body : String
  channelBuilt : Option OutChannel
  dispatched : Option UserMessage
  errorLogged : Bool
  infoLogged : Bool

/-- Python comparison of the type field with the string message: true only
for the equal string value. -/
def isMessageType : Json → Bool
  | .str s => s = "message"
  | _ => false

/-- Embedding of the webhook request handler registered on POST /webhook. -/
def webhook (app_id app_password : String) (handlerRaises : UserMessage → Bool)
    (pd : Json) : WebhookOutcome :=
  match pyGetItem pd "type" with
  | none =>
      { status := 200, body := "success", channelBuilt := none,
        dispatched := none, errorLogged := true, infoLogged := false }
  | some ty =>
    if isMessageType ty then
      match pyGetItem pd "conversation" with
      | none =>
          { status := 200, body := "success", channelBuilt := none,
            dispatched := none, errorLogged := true, infoLogged := false }
      | some conv =>
        match pyGetItem pd "recipient" with
        | none =>
            { status := 200, body := "success", channelBuilt := none,
              dispatched := none, errorLogged := true, infoLogged := false }
        | some recip =>
          match pyGetItem pd "serviceUrl" with
          | none =>
              { status := 200, body := "success", channelBuilt := none,
                dispatched := none, errorLogged := true, infoLogged := false }
          | some su =>
            let ch : OutChannel :=
              { app_id := app_id, app_password := app_password,
                conversation := conv, bot := recip, service_url := su }
            if truthy (pyGet pd "attachments") then
              match fromId pd with
              | none =>
                  { status := 200, body := "success", channelBuilt := some ch,
                    dispatched := none, errorLogged := true, infoLogged := false }
              | some sid =>
                let msg : UserMessage :=
                  { text := if truthy (pyGet pd "text") then pyGet pd "text" else Json.str ""
                    output_channel := ch
                    sender_id := sid
                    input_channel := "botframework"
                    metadata := some (Json.obj [("attachments", pyGet pd "attachments")]) }
                { status := 200, body := "success", channelBuilt := some ch,
                  dispatched := some msg, errorLogged := handlerRaises msg,
                  infoLogged := false }
            else if truthy (pyGet pd "text") then
              match fromId pd with
              | none =>
                  { status := 200, body := "success", channelBuilt := some ch,
                    dispatched := none, errorLogged := true, infoLogged := false }
              | some sid =>
                let msg : UserMessage :=
                  { text := pyGet pd "text", output_channel := ch, sender_id := sid,
                    input_channel := "botframework", metadata := none }
                { status := 200, body := "success", channelBuilt := some ch,
                  dispatched := some msg, errorLogged := handlerRaises msg,
                  infoLogged := false }
            else
              match pyGetItem pd "value" with
              | none =>
                  { status := 200, body := "success", channelBuilt := some ch,
                    dispatched := none, errorLogged := true, infoLogged := false }
              | some v =>
                match fromId pd with
                | none =>
                    { status := 200, body := "success", channelBuilt := some ch,
                      dispatched := none, errorLogged := true, infoLogged := false }
                | some sid =>
                  let msg : UserMessage :=
                    { text := Json.str (dumps v), output_channel := ch, sender_id := sid,
                      input_channel := "botframework", metadata := none }
                  { status := 200, body := "success", channelBuilt := some ch,
                    dispatched := some msg, errorLogged := handlerRaises msg,
                    infoLogged := false }
    else
      { status := 200, body := "success", channelBuilt := none,
        dispatched := none, errorLogged := false, infoLogged := true }

/-! ## Outbound payload construction

The dict operations of the source (dict literal update, setdefault) are
embedded as association list operations preserving Python semantics:
update replaces the value of an existing key in place and appends new keys
at the end; setdefault inserts only when the key is absent. -/

/-- Replacement of the value stored under an existing key, keeping entry
order, as Python assignment to a present dict key behaves. -/
def setKey (d : Dict) (k : String) (v : Json) : Dict :=
  d.map (fun kv => if kv.1 = k then (k, v) else kv)

/-- One step of Python dict update for a single key value pair. -/
def updOne (d : Dict) (k : String) (v : Json) : Dict :=
  if (dlookup k d).isSome then setKey d k v else d ++ [(k, v)]

/-- Python d.update(m): every entry of m is written into d in order. -/
def pyUpdate (d m : Dict) : Dict :=
  m.foldl (fun acc kv => updOne acc kv.1 kv.2) d

/-- Python d.setdefault(k, v), dict part: unchanged when k is present,
otherwise the pair is appended. -/
def sd (d : Dict) (k : String) (v : Json) : Dict :=
  match dlookup k d with
  | some _ => d
  | none => d ++ [(k, v)]

/-- Python d.setdefault(k, v), value part: the stored value when k is
present, otherwise the supplied default. -/
def sdval (d : Dict) (k : String) (v : Json) : Json :=
  (dlookup k d).getD v

/-- Default activity fields of BotFramework.prepare_message, built fresh
per call from the bot identity and the recipient id. -/
def default_activity (bot : Json) (recipient_id : String) : Dict :=
  [("type", Json.str "message"),
   ("recipient", Json.obj [("id", Json.str recipient_id)]),
   ("from", bot),
   ("channelData", Json.obj [("notification", Json.obj [("alert", Json.str "true")])]),
   ("text", Json.str "")]

/-- Embedding of BotFramework.prepare_message: the default dict updated
with the caller message data. -/
def prepare_message (bot : Json) (recipient_id : String) (message_data : Dict) : Dict :=
  pyUpdate (default_activity bot recipient_id) message_data

/-- Python text.split with the two character separator of two newlines:
non overlapping occurrences are removed scanning left to right, empty
pieces are kept, and the empty string yields one empty piece. -/
def splitParagraphs : List Char → List (List Char)
  | [] => [[]]
  | '\n' :: '\n' :: rest => [] :: splitParagraphs rest
  | c :: rest =>
    match splitParagraphs rest with
    | [] => [[c]]
    | p :: ps => (c :: p) :: ps

/-- String wrapper around splitParagraphs, the embedding of the Python
expression text.split applied to a double newline separator. -/
def pySplitDoubleNewline (s : String) : List String :=
  (splitParagraphs s.data).map (fun cs => String.mk cs)

/-- Embedding of BotFramework.send_text_message: the list, in delivery
order, of the activity payloads handed to send, one per paragraph; each
send is awaited before the next paragraph is processed, so list order is
wire order. -/
def send_text_message (bot : Json) (recipient_id : String) (text : String) : List Dict :=
  (pySplitDoubleNewline text).map
    (fun message_part => prepare_message bot recipient_id [("text", Json.str message_part)])

/-- Embedding of BotFramework.send_elements: one prepared activity per
element, in iteration order, each awaited before the next. -/
def send_elements (bot : Json) (recipient_id : String) (elements : List Dict) : List Dict :=
  elements.map (prepare_message bot recipient_id)

/-! ## Custom JSON sending (BotFramework.send_custom_json)

The source mutates the caller dict through a chain of setdefault calls and
then hands the very same object to send. The mutation is embedded by
explicit state passing through the named intermediate dicts below, one per
setdefault step, in source order: type, recipient (nested id), from,
channelData (nested notification, nested alert), text. A nested setdefault
on a value that is not a dict raises in Python; that path is none. -/

/-- Json value viewed as a dict, none when it is not an object (the Python
AttributeError path of a nested setdefault). -/
def asObj : Json → Option Dict
  | .obj kvs => some kvs
  | _ => none

/-- State of json_message after the type setdefault. -/
def fd_m1 (m : Dict) : Dict := sd m "type" (Json.str "message")

/-- State of json_message after the recipient setdefault. -/
def fd_recD (m : Dict) : Dict := sd (fd_m1 m) "recipient" (Json.obj [])

/-- Value returned by the recipient setdefault, target of the nested id
setdefault. -/
def fd_recV (m : Dict) : Json := sdval (fd_m1 m) "recipient" (Json.obj [])

/-- State of json_message after writing back the mutated recipient value
and applying the from setdefault. -/
def fd_m4 (bot : Json) (rid : String) (m : Dict) (ro : Dict) : Dict :=
  sd (setKey (fd_recD m) "recipient" (Json.obj (sd ro "id" (Json.str rid)))) "from" bot

/-- State of json_message after the channelData setdefault. -/
def fd_cdD (bot : Json) (rid : String) (m : Dict) (ro : Dict) : Dict :=
  sd (fd_m4 bot rid m ro) "channelData" (Json.obj [])

/-- Value returned by the channelData setdefault. -/
def fd_cdV (bot : Json) (rid : String) (m : Dict) (ro : Dict) : Json :=
  sdval (fd_m4 bot rid m ro) "channelData" (Json.obj [])

/-- State of the channelData dict after the notification setdefault. -/
def fd_ntD (co : Dict) : Dict := sd co "notification" (Json.obj [])

/-- Value returned by the notification setdefault. -/
def fd_ntV (co : Dict) : Json := sdval co "notification" (Json.obj [])

/-- Final state of json_message: the alert setdefault applied inside the
notification dict, both nested mutations written back, then the text
setdefault. -/
def fd_final (bot : Json) (rid : String) (m : Dict) (ro co no : Dict) : Dict :=
  sd (setKey (fd_cdD bot rid m ro) "channelData"
        (Json.obj (setKey (fd_ntD co) "notification"
          (Json.obj (sd no "alert" (Json.str "true"))))))
     "text" (Json.str "")

/-- The setdefault chain of send_custom_json: none models the exception
raised when recipient, channelData or notification holds a non-dict
value. -/
def fill_defaults (bot : Json) (rid : String) (m : Dict) : Option Dict :=
  match asObj (fd_recV m) with
  | none => none
  | some ro =>
    match asObj (fd_cdV bot rid m ro) with
    | none => none
    | some co =>
      match asObj (fd_ntV co) with
      | none => none
      | some no => some (fd_final bot rid m ro co no)

/-- Observable outcome of send_custom_json: the content of the caller
json_message argument after the call, and the payload handed to send.
In the source these are one and the same dict object. -/
structure SendCustomResult where
  json_message : Dict
  sent : Dict

/-- Embedding of BotFramework.send_custom_json: fills the default fields
into the caller dict and sends that same dict. -/
def send_custom_json (bot : Json) (recipient_id : String) (m : Dict) :
    Option SendCustomResult :=
  match fill_defaults bot recipient_id m with
  | none => none
  | some d => some { json_message := d, sent := d }

/-- Nested lookup recipient.id of a payload dict. -/
def recipient_id_path (d : Dict) : Option Json :=
  match dlookup "recipient" d with
  | some (Json.obj ro) => dlookup "id" ro
  | _ => none

/-- Nested lookup channelData.notification.alert of a payload dict. -/
def alert_path (d : Dict) : Option Json :=
  match dlookup "channelData" d with
  | some (Json.obj co) =>
    match dlookup "notification" co with
    | some (Json.obj no) => dlookup "alert" no
    | _ => none
  | _ => none

/-- C1: with the cached expiry strictly in the future, get_headers returns
the cached header map, leaves the state unchanged and issues no network
call; a repeated call under a still-future expiry returns the same value,
hence the same Authorization entry. -/
theorem C1_token_reuse (app_id app_password : String) (st : TokenState)
    (n1 n2 n1' n2' : Int) (resp resp' : TokenResponse)
    (h : n1 < st.token_expiration_date) (h' : n1' < st.token_expiration_date) :
    get_headers app_id app_password st n1 n2 resp =
      { ret := st.headers, st := st, calls := [], errorLogged := false } ∧
    (get_headers app_id app_password
        (get_headers app_id app_password st n1 n2 resp).st n1' n2' resp').ret =
      st.headers := by
  have hn : ¬ st.token_expiration_date < n1 := by omega
  have hn' : ¬ st.token_expiration_date < n1' := by omega
  constructor
  · simp [get_headers, hn]
  · simp [get_headers, hn, hn']

/-- Witness for C1 at a concrete state and clock. -/
theorem C1_token_reuse_witness :
    get_headers "id" "pw" { token_expiration_date := 10, headers := some [("a", "b")] }
        3 4 { ok := true, access_token := "t", expires_in := 5 } =
      { ret := some [("a", "b")],
        st := { token_expiration_date := 10, headers := some [("a", "b")] },
        calls := [], errorLogged := false } :=
  (C1_token_reuse "id" "pw"
    { token_expiration_date := 10, headers := some [("a", "b")] }
    3 4 3 4 { ok := true, access_token := "t", expires_in := 5 }
    { ok := true, access_token := "t", expires_in := 5 }
    (by decide) (by decide)).1

/-- C2: with the cached expiry not in the future, get_headers issues exactly
one POST to the Microsoft identity token endpoint carrying the four
client-credentials form fields, and on an ok response stores expiry
issuance time plus expires_in, caches the content-type and Bearer
Authorization header map, and returns it. -/
theorem C2_token_refresh (app_id app_password : String) (st : TokenState)
    (n1 n2 : Int) (resp : TokenResponse)
    (hexp : st.token_expiration_date < n1) (hok : resp.ok = true) :
    get_headers app_id app_password st n1 n2 resp =
      { ret := some [("content-type", "application/json"),
                     ("Authorization", "Bearer " ++ resp.access_token)]
        st := { token_expiration_date := n2 + resp.expires_in,
                headers := some [("content-type", "application/json"),
                                 ("Authorization", "Bearer " ++ resp.access_token)] }
        calls := [{ uri := "https://login.microsoftonline.com/botframework.com/oauth2/v2.0/token"
                    client_id := app_id
                    client_secret := app_password
                    grant_type := "client_credentials"
                    scope := "https://api.botframework.com/.default" }]
        errorLogged := false } := by
  simp [get_headers, hexp, hok, MICROSOFT_OAUTH2_URL, MICROSOFT_OAUTH2_PATH]

/-- Witness for C2 at a concrete expired state. -/
theorem C2_token_refresh_witness :
    get_headers "id" "pw" { token_expiration_date := 1, headers := none }
        5 6 { ok := true, access_token := "tok", expires_in := 3600 } =
      { ret := some [("content-type", "application/json"),
                     ("Authorization", "Bearer tok")]
        st := { token_expiration_date := 3606,
                headers := some [("content-type", "application/json"),
                                 ("Authorization", "Bearer tok")] }
        calls := [{ uri := "https://login.microsoftonline.com/botframework.com/oauth2/v2.0/token"
                    client_id := "id"
                    client_secret := "pw"
                    grant_type := "client_credentials"
                    scope := "https://api.botframework.com/.default" }]
        errorLogged := false } :=
  C2_token_refresh "id" "pw" { token_expiration_date := 1, headers := none }
    5 6 { ok := true, access_token := "tok", expires_in := 3600 } (by decide) rfl

/-- C3: when the token endpoint answers non-ok, get_headers logs the error,
leaves the cached expiry and header map unchanged, and returns None. -/
theorem C3_token_failure (app_id app_password : String) (st : TokenState)
    (n1 n2 : Int) (resp : TokenResponse)
    (hexp : st.token_expiration_date < n1) (hfail : resp.ok = false) :
    (get_headers app_id app_password st n1 n2 resp).ret = none ∧
    (get_headers app_id app_password st n1 n2 resp).st = st ∧
    (get_headers app_id app_password st n1 n2 resp).errorLogged = true := by
  simp [get_headers, hexp, hfail]

/-- Witness for C3 at a concrete expired state and failing response. -/
theorem C3_token_failure_witness :
    (get_headers "id" "pw" { token_expiration_date := 1, headers := none }
        5 6 { ok := false, access_token := "", expires_in := 0 }).ret = none ∧
    (get_headers "id" "pw" { token_expiration_date := 1, headers := none }
        5 6 { ok := false, access_token := "", expires_in := 0 }).st =
      { token_expiration_date := 1, headers := none } ∧
    (get_headers "id" "pw" { token_expiration_date := 1, headers := none }
        5 6 { ok := false, access_token := "", expires_in := 0 }).errorLogged = true :=
  C3_token_failure "id" "pw" { token_expiration_date := 1, headers := none }
    5 6 { ok := false, access_token := "", expires_in := 0 } (by decide) rfl

/-- C4: every parsed webhook body, well formed or not, is answered with
HTTP 200 and the plain-text body success; when the body lacks a usable
sender id (for example a missing from field or from.id), the backend
handler on_new_message is never invoked. -/
theorem C4_webhook_always_success (app_id app_password : String)
    (hr : UserMessage → Bool) (pd : Json) :
    (webhook app_id app_password hr pd).status = 200 ∧
    (webhook app_id app_password hr pd).body = "success" ∧
    (fromId pd = none → (webhook app_id app_password hr pd).dispatched = none) := by
  unfold webhook
  repeat' split
  all_goals (try exact ⟨rfl, rfl, fun _ => rfl⟩)
  all_goals simp_all

/-- Witness for C4 on a malformed body that has a message type but no from
field. -/
theorem C4_webhook_always_success_witness :
    (webhook "a" "p" (fun _ => false) (Json.obj [("type", Json.str "message")])).status = 200 ∧
    (webhook "a" "p" (fun _ => false) (Json.obj [("type", Json.str "message")])).body = "success" ∧
    (webhook "a" "p" (fun _ => false) (Json.obj [("type", Json.str "message")])).dispatched = none := by
  have h := C4_webhook_always_success "a" "p" (fun _ => false)
    (Json.obj [("type", Json.str "message")])
  exact ⟨h.1, h.2.1, h.2.2 rfl⟩

/-- C5: for a message-type activity carrying the conversation, recipient,
serviceUrl and from.id fields, the webhook dispatches a normalized message
whose content follows the priority order: truthy attachments give text
equal to the text field when truthy and the empty string otherwise plus
attachment metadata; otherwise a truthy text field is carried verbatim
with no metadata; otherwise the value field is carried JSON-serialized
with no metadata. In each case the sender id is from.id, the input channel
name is botframework, and the output channel is built from the credential
pair and the three activity fields. -/
theorem C5_inbound_classification (app_id app_password : String)
    (hr : UserMessage → Bool) (pd conv recip su sid : Json)
    (hty : pyGetItem pd "type" = some (Json.str "message"))
    (hconv : pyGetItem pd "conversation" = some conv)
    (hrecip : pyGetItem pd "recipient" = some recip)
    (hsu : pyGetItem pd "serviceUrl" = some su)
    (hfrom : fromId pd = some sid) :
    (truthy (pyGet pd "attachments") = true →
      (webhook app_id app_password hr pd).dispatched = some
        { text := if truthy (pyGet pd "text") then pyGet pd "text" else Json.str ""
          output_channel := { app_id := app_id, app_password := app_password,
                              conversation := conv, bot := recip, service_url := su }
          sender_id := sid
          input_channel := "botframework"
          metadata := some (Json.obj [("attachments", pyGet pd "attachments")]) }) ∧
    (truthy (pyGet pd "attachments") = false → truthy (pyGet pd "text") = true →
      (webhook app_id app_password hr pd).dispatched = some
        { text := pyGet pd "text"
          output_channel := { app_id := app_id, app_password := app_password,
                              conversation := conv, bot := recip, service_url := su }
          sender_id := sid
          input_channel := "botframework"
          metadata := none }) ∧
    (truthy (pyGet pd "attachments") = false → truthy (pyGet pd "text") = false →
      ∀ v, pyGetItem pd "value" = some v →
        (webhook app_id app_password hr pd).dispatched = some
          { text := Json.str (dumps v)
            output_channel := { app_id := app_id, app_password := app_password,
                                conversation := conv, bot := recip, service_url := su }
            sender_id := sid
            input_channel := "botframework"
            metadata := none }) := by
  refine ⟨fun hatt => ?_, fun hatt htxt => ?_, fun hatt htxt v hv => ?_⟩ <;>
    simp [webhook, hty, hconv, hrecip, hsu, hfrom, hatt, isMessageType] <;>
    simp [htxt]
  · simp [hv]

/-- Witness for C5 on a concrete text-only activity. -/
theorem C5_inbound_classification_witness :
    (webhook "a" "p" (fun _ => false)
        (Json.obj [("type", Json.str "message"),
                   ("conversation", Json.obj [("id", Json.str "c1")]),
                   ("recipient", Json.str "bot"),
                   ("serviceUrl", Json.str "https://s/"),
                   ("from", Json.obj [("id", Json.str "u1")]),
                   ("text", Json.str "hello")])).dispatched = some
      { text := Json.str "hello"
        output_channel := { app_id := "a", app_password := "p",
                            conversation := Json.obj [("id", Json.str "c1")],
                            bot := Json.str "bot", service_url := Json.str "https://s/" }
        sender_id := Json.str "u1"
        input_channel := "botframework"
        metadata := none } := by
  have h := C5_inbound_classification "a" "p" (fun _ => false)
    (Json.obj [("type", Json.str "message"),
               ("conversation", Json.obj [("id", Json.str "c1")]),
               ("recipient", Json.str "bot"),
               ("serviceUrl", Json.str "https://s/"),
               ("from", Json.obj [("id", Json.str "u1")]),
               ("text", Json.str "hello")])
    (Json.obj [("id", Json.str "c1")]) (Json.str "bot") (Json.str "https://s/")
    (Json.str "u1") rfl rfl rfl rfl rfl
  exact h.2.1 rfl rfl

/-- C8: an activity whose type field is present but not the string message
is logged and acknowledged with 200 success, with no outbound channel
constructed, no backend dispatch, and no error log line. -/
theorem C8_non_message_ack (app_id app_password : String)
    (hr : UserMessage → Bool) (pd ty : Json)
    (hty : pyGetItem pd "type" = some ty) (hne : ty ≠ Json.str "message") :
    webhook app_id app_password hr pd =
      { status := 200, body := "success", channelBuilt := none,
        dispatched := none, errorLogged := false, infoLogged := true } := by
  have hmsg : isMessageType ty = false := by
    cases ty <;> simp [isMessageType]
    intro h
    exact hne (by simp [h])
  simp [webhook, hty, hmsg]

/-- Witness for C8 on a conversationUpdate activity. -/
theorem C8_non_message_ack_witness :
    webhook "a" "p" (fun _ => false)
        (Json.obj [("type", Json.str "conversationUpdate")]) =
      { status := 200, body := "success", channelBuilt := none,
        dispatched := none, errorLogged := false, infoLogged := true } :=
  C8_non_message_ack "a" "p" (fun _ => false)
    (Json.obj [("type", Json.str "conversationUpdate")])
    (Json.str "conversationUpdate") rfl (by simp)

theorem dlookup_append (k : String) (d1 d2 : Dict) :
    dlookup k (d1 ++ d2) = (dlookup k d1).or (dlookup k d2) := by
  induction d1 with
  | nil => simp [dlookup]
  | cons kv rest ih =>
    by_cases hk : kv.1 = k <;> simp [dlookup, hk, ih]

theorem dlookup_eq_none (k : String) (m : Dict) (h : k ∉ m.map Prod.fst) :
    dlookup k m = none := by
  induction m with
  | nil => rfl
  | cons kv rest ih =>
    simp only [List.map_cons, List.mem_cons] at h
    push_neg at h
    have h1 : ¬ kv.1 = k := fun hh => h.1 hh.symm
    simp [dlookup, h1, ih h.2]

theorem dlookup_setKey_self (d : Dict) (k : String) (v : Json)
    (h : (dlookup k d).isSome) : dlookup k (setKey d k v) = some v := by
  induction d with
  | nil => simp [dlookup] at h
  | cons kv rest ih =>
    by_cases hk : kv.1 = k
    · simp [setKey, dlookup, hk]
    · simp only [dlookup, hk, if_false] at h
      simpa [setKey, dlookup, hk] using ih h

theorem dlookup_setKey_ne (d : Dict) (k2 k : String) (v : Json) (h : k2 ≠ k) :
    dlookup k2 (setKey d k v) = dlookup k2 d := by
  induction d with
  | nil => rfl
  | cons kv rest ih =>
    simp only [setKey, List.map_cons] at ih ⊢
    by_cases hk : kv.1 = k
    · have hkk2 : ¬ k = k2 := fun hh => h hh.symm
      have hkv : ¬ kv.1 = k2 := by rw [hk]; exact hkk2
      simp [dlookup, hk, hkk2, hkv, ih]
    · by_cases hk2 : kv.1 = k2
      · simp [dlookup, hk, hk2, h]
      · simp [dlookup, hk, hk2, ih]

theorem dlookup_sd_self (d : Dict) (k : String) (v : Json) :
    dlookup k (sd d k v) = some (sdval d k v) := by
  unfold sd sdval
  cases h : dlookup k d with
  | some w => simp [h]
  | none => simp [h, dlookup_append, dlookup]

theorem dlookup_sd_ne (d : Dict) (k2 k : String) (v : Json) (h : k2 ≠ k) :
    dlookup k2 (sd d k v) = dlookup k2 d := by
  unfold sd
  cases hx : dlookup k d with
  | some w => rfl
  | none =>
    rw [dlookup_append]
    have hkk2 : ¬ k = k2 := fun hh => h hh.symm
    have hone : dlookup k2 [(k, v)] = none := by simp [dlookup, hkk2]
    simp [hone]

theorem sd_isSome (d : Dict) (k : String) (v : Json) :
    (dlookup k (sd d k v)).isSome := by
  rw [dlookup_sd_self]; rfl

theorem dlookup_updOne (d : Dict) (k : String) (v : Json) (k2 : String) :
    dlookup k2 (updOne d k v) = if k2 = k then some v else dlookup k2 d := by
  unfold updOne
  by_cases hs : (dlookup k d).isSome
  · by_cases hk : k2 = k
    · subst hk; simp [hs, dlookup_setKey_self d k2 v hs]
    · simp [hs, hk, dlookup_setKey_ne d k2 k v hk]
  · have hnone : dlookup k d = none := Option.not_isSome_iff_eq_none.mp hs
    by_cases hk : k2 = k
    · subst hk; simp [hs, dlookup_append, hnone, dlookup]
    · have hkk2 : ¬ k = k2 := fun hh => hk hh.symm
      have hone : dlookup k2 [(k, v)] = none := by simp [dlookup, hkk2]
      simp [hs, hk, dlookup_append, hone]

theorem dlookup_pyUpdate (m : Dict) (hnd : (m.map Prod.fst).Nodup) (d : Dict) (k : String) :
    dlookup k (pyUpdate d m) = (dlookup k m).or (dlookup k d) := by
  induction m generalizing d with
  | nil => simp [pyUpdate, dlookup]
  | cons kv rest ih =>
    simp only [List.map_cons, List.nodup_cons] at hnd
    have step : pyUpdate d (kv :: rest) = pyUpdate (updOne d kv.1 kv.2) rest := rfl
    rw [step, ih hnd.2 (updOne d kv.1 kv.2), dlookup_updOne]
    by_cases hk : kv.1 = k
    · have hrest : dlookup k rest = none := dlookup_eq_none k rest (hk ▸ hnd.1)
      simp [dlookup, hk, hrest]
    · have : ¬ k = kv.1 := fun hh => hk hh.symm
      simp [dlookup, hk, this]

theorem prepare_message_text (bot : Json) (recipient_id : String) (p : String) :
    dlookup "text" (prepare_message bot recipient_id [("text", Json.str p)]) =
      some (Json.str p) := by
  rw [prepare_message, dlookup_pyUpdate _ (by simp)]
  simp [dlookup]

/-- C6: send_text_message sends one activity per double-newline paragraph
of the text, in paragraph order, with the paragraph as the text field; in
particular the three-paragraph example yields exactly the three texts a,
b, c in order. -/
theorem C6_paragraph_splitting (bot : Json) (recipient_id : String) (text : String) :
    (send_text_message bot recipient_id text).length = (pySplitDoubleNewline text).length ∧
    (send_text_message bot recipient_id text).map (dlookup "text") =
      (pySplitDoubleNewline text).map (fun p => some (Json.str p)) ∧
    (send_text_message bot recipient_id "a\n\nb\n\nc").map (dlookup "text") =
      [some (Json.str "a"), some (Json.str "b"), some (Json.str "c")] := by
  refine ⟨by simp [send_text_message], ?_, ?_⟩
  · simp [send_text_message, List.map_map, Function.comp, prepare_message_text]
  · rfl

/-- C9: the merge done by prepare_message is shallow: a top-level key of
the message data replaces the default value wholesale, so a caller
supplied channelData loses the default alert entry entirely; absent keys
keep exactly the default type, recipient, from, channelData and text
values; send_elements prepares one element per payload in order. -/
theorem C9_shallow_merge (bot : Json) (recipient_id : String) (message_data : Dict)
    (elements : List Dict) (k : String)
    (hnd : (message_data.map Prod.fst).Nodup) :
    (∀ v, dlookup k message_data = some v →
        dlookup k (prepare_message bot recipient_id message_data) = some v) ∧
    (dlookup k message_data = none →
        dlookup k (prepare_message bot recipient_id message_data) =
          dlookup k [("type", Json.str "message"),
                     ("recipient", Json.obj [("id", Json.str recipient_id)]),
                     ("from", bot),
                     ("channelData",
                      Json.obj [("notification", Json.obj [("alert", Json.str "true")])]),
                     ("text", Json.str "")]) ∧
    send_elements bot recipient_id elements = elements.map (prepare_message bot recipient_id) ∧
    dlookup "channelData"
        (prepare_message bot recipient_id [("channelData", Json.obj [("x", Json.num 1)])]) =
      some (Json.obj [("x", Json.num 1)]) := by
  refine ⟨?_, ?_, rfl, ?_⟩
  · intro v hv
    rw [prepare_message, dlookup_pyUpdate message_data hnd, hv]
    rfl
  · intro hv
    rw [prepare_message, dlookup_pyUpdate message_data hnd, hv]
    rfl
  · rw [prepare_message, dlookup_pyUpdate _ (by simp)]
    rfl

/-- Witness for C9: a caller supplied channelData object replaces the
default one wholesale, with no alert entry merged in. -/
theorem C9_shallow_merge_witness :
    dlookup "channelData"
        (prepare_message (Json.str "B") "u1" [("channelData", Json.obj [("x", Json.num 1)])]) =
      some (Json.obj [("x", Json.num 1)]) :=
  (C9_shallow_merge (Json.str "B") "u1" [("channelData", Json.obj [("x", Json.num 1)])]
    [] "channelData" (by simp)).1 (Json.obj [("x", Json.num 1)]) rfl

theorem fill_defaults_spec (bot : Json) (rid : String) (m d : Dict)
    (h : fill_defaults bot rid m = some d) :
    ∃ ro co no, asObj (fd_recV m) = some ro ∧ asObj (fd_cdV bot rid m ro) = some co ∧
      asObj (fd_ntV co) = some no ∧ d = fd_final bot rid m ro co no := by
  unfold fill_defaults at h
  split at h
  · cases h
  next ro h1 =>
    split at h
    · cases h
    next co h2 =>
      split at h
      · cases h
      next no h3 =>
        exact ⟨ro, co, no, h1, h2, h3, (Option.some.inj h).symm⟩

theorem send_custom_json_spec (bot : Json) (rid : String) (m : Dict)
    (r : SendCustomResult) (h : send_custom_json bot rid m = some r) :
    fill_defaults bot rid m = some r.sent ∧ r.json_message = r.sent := by
  unfold send_custom_json at h
  cases hf : fill_defaults bot rid m with
  | none => rw [hf] at h; cases h
  | some d =>
    rw [hf] at h
    have hr := Option.some.inj h
    rw [← hr]
    exact ⟨rfl, rfl⟩

theorem dlookup_fd_recD_ne (m : Dict) (k : String)
    (h1 : k ≠ "recipient") (h2 : k ≠ "type") :
    dlookup k (fd_recD m) = dlookup k m := by
  unfold fd_recD fd_m1
  rw [dlookup_sd_ne _ k "recipient" _ h1, dlookup_sd_ne _ k "type" _ h2]

theorem dlookup_fd_m4_ne (bot : Json) (rid : String) (m : Dict) (ro : Dict) (k : String)
    (h1 : k ≠ "from") (h2 : k ≠ "recipient") (h3 : k ≠ "type") :
    dlookup k (fd_m4 bot rid m ro) = dlookup k m := by
  unfold fd_m4
  rw [dlookup_sd_ne _ k "from" _ h1, dlookup_setKey_ne _ k "recipient" _ h2,
      dlookup_fd_recD_ne m k h2 h3]

theorem fd_final_type (bot : Json) (rid : String) (m : Dict) (ro co no : Dict) :
    dlookup "type" (fd_final bot rid m ro co no) =
      some ((dlookup "type" m).getD (Json.str "message")) := by
  unfold fd_final fd_cdD fd_m4 fd_recD fd_m1
  rw [dlookup_sd_ne _ "type" "text" _ (by decide),
      dlookup_setKey_ne _ "type" "channelData" _ (by decide),
      dlookup_sd_ne _ "type" "channelData" _ (by decide),
      dlookup_sd_ne _ "type" "from" _ (by decide),
      dlookup_setKey_ne _ "type" "recipient" _ (by decide),
      dlookup_sd_ne _ "type" "recipient" _ (by decide),
      dlookup_sd_self]
  rfl

theorem fd_final_from (bot : Json) (rid : String) (m : Dict) (ro co no : Dict) :
    dlookup "from" (fd_final bot rid m ro co no) =
      some ((dlookup "from" m).getD bot) := by
  unfold fd_final fd_cdD fd_m4
  rw [dlookup_sd_ne _ "from" "text" _ (by decide),
      dlookup_setKey_ne _ "from" "channelData" _ (by decide),
      dlookup_sd_ne _ "from" "channelData" _ (by decide),
      dlookup_sd_self]
  unfold sdval
  rw [dlookup_setKey_ne _ "from" "recipient" _ (by decide),
      dlookup_fd_recD_ne m "from" (by decide) (by decide)]

theorem fd_final_text (bot : Json) (rid : String) (m : Dict) (ro co no : Dict) :
    dlookup "text" (fd_final bot rid m ro co no) =
      some ((dlookup "text" m).getD (Json.str "")) := by
  unfold fd_final
  rw [dlookup_sd_self]
  unfold sdval
  rw [dlookup_setKey_ne _ "text" "channelData" _ (by decide)]
  unfold fd_cdD
  rw [dlookup_sd_ne _ "text" "channelData" _ (by decide),
      dlookup_fd_m4_ne bot rid m ro "text" (by decide) (by decide) (by decide)]

theorem fd_final_recipient (bot : Json) (rid : String) (m : Dict) (ro co no : Dict) :
    dlookup "recipient" (fd_final bot rid m ro co no) =
      some (Json.obj (sd ro "id" (Json.str rid))) := by
  unfold fd_final fd_cdD
  rw [dlookup_sd_ne _ "recipient" "text" _ (by decide),
      dlookup_setKey_ne _ "recipient" "channelData" _ (by decide),
      dlookup_sd_ne _ "recipient" "channelData" _ (by decide)]
  unfold fd_m4
  rw [dlookup_sd_ne _ "recipient" "from" _ (by decide),
      dlookup_setKey_self _ "recipient" _ (by unfold fd_recD; exact sd_isSome _ _ _)]

theorem fd_final_channelData (bot : Json) (rid : String) (m : Dict) (ro co no : Dict) :
    dlookup "channelData" (fd_final bot rid m ro co no) =
      some (Json.obj (setKey (fd_ntD co) "notification"
        (Json.obj (sd no "alert" (Json.str "true"))))) := by
  unfold fd_final
  rw [dlookup_sd_ne _ "channelData" "text" _ (by decide),
      dlookup_setKey_self _ "channelData" _ (by unfold fd_cdD; exact sd_isSome _ _ _)]

theorem asObj_recV (m : Dict) (ro : Dict) (h : asObj (fd_recV m) = some ro) :
    (dlookup "recipient" m = none ∧ ro = []) ∨
      dlookup "recipient" m = some (Json.obj ro) := by
  unfold fd_recV sdval at h
  have hm : dlookup "recipient" (fd_m1 m) = dlookup "recipient" m := by
    unfold fd_m1
    rw [dlookup_sd_ne _ "recipient" "type" _ (by decide)]
  rw [hm] at h
  cases hx : dlookup "recipient" m with
  | none =>
    rw [hx] at h
    simp only [Option.getD_none, asObj, Option.some.injEq] at h
    exact Or.inl ⟨rfl, h.symm⟩
  | some v =>
    rw [hx] at h
    cases v <;> simp only [Option.getD_some, asObj, Option.some.injEq,
      reduceCtorEq] at h
    rename_i kvs
    rw [h]
    exact Or.inr rfl

theorem asObj_cdV (bot : Json) (rid : String) (m ro co : Dict)
    (h : asObj (fd_cdV bot rid m ro) = some co) :
    (dlookup "channelData" m = none ∧ co = []) ∨
      dlookup "channelData" m = some (Json.obj co) := by
  unfold fd_cdV sdval at h
  rw [dlookup_fd_m4_ne bot rid m ro "channelData" (by decide) (by decide) (by decide)] at h
  cases hx : dlookup "channelData" m with
  | none =>
    rw [hx] at h
    simp only [Option.getD_none, asObj, Option.some.injEq] at h
    exact Or.inl ⟨rfl, h.symm⟩
  | some v =>
    rw [hx] at h
    cases v <;> simp only [Option.getD_some, asObj, Option.some.injEq,
      reduceCtorEq] at h
    rw [h]
    exact Or.inr rfl

theorem asObj_ntV (co no : Dict) (h : asObj (fd_ntV co) = some no) :
    (dlookup "notification" co = none ∧ no = []) ∨
      dlookup "notification" co = some (Json.obj no) := by
  unfold fd_ntV sdval at h
  cases hx : dlookup "notification" co with
  | none =>
    rw [hx] at h
    simp only [Option.getD_none, asObj, Option.some.injEq] at h
    exact Or.inl ⟨rfl, h.symm⟩
  | some v =>
    rw [hx] at h
    cases v <;> simp only [Option.getD_some, asObj, Option.some.injEq,
      reduceCtorEq] at h
    rw [h]
    exact Or.inr rfl

theorem setKey_append_of_absent (d : Dict) (k : String) (x y : Json)
    (h : dlookup k d = none) : setKey (d ++ [(k, x)]) k y = d ++ [(k, y)] := by
  induction d with
  | nil => simp [setKey]
  | cons kv rest ih =>
    simp only [dlookup] at h
    by_cases hk : kv.1 = k
    · rw [if_pos hk] at h; cases h
    · rw [if_neg hk] at h
      simp [setKey, hk] at ih ⊢
      exact ih h

/-- C7: when send_custom_json completes (no nested non-dict value), it
delivers exactly the post-mutation dict, and each default field was
written only when absent: present type, from and text values survive
unchanged and absent ones get the defaults; an absent recipient becomes an
object holding only the recipient id while a present recipient object only
gains an id entry when it had none; an absent channelData becomes the
default notification alert object while a present one is extended without
overwriting an existing notification or alert. -/
theorem C7_custom_json_defaults (bot : Json) (recipient_id : String) (m : Dict)
    (r : SendCustomResult) (h : send_custom_json bot recipient_id m = some r) :
    r.sent = r.json_message ∧
    dlookup "type" r.sent = some ((dlookup "type" m).getD (Json.str "message")) ∧
    dlookup "from" r.sent = some ((dlookup "from" m).getD bot) ∧
    dlookup "text" r.sent = some ((dlookup "text" m).getD (Json.str "")) ∧
    (dlookup "recipient" m = none →
      dlookup "recipient" r.sent = some (Json.obj [("id", Json.str recipient_id)])) ∧
    (∀ ro, dlookup "recipient" m = some (Json.obj ro) →
      dlookup "recipient" r.sent =
        some (Json.obj (sd ro "id" (Json.str recipient_id)))) ∧
    (dlookup "channelData" m = none →
      dlookup "channelData" r.sent =
        some (Json.obj [("notification", Json.obj [("alert", Json.str "true")])])) ∧
    (∀ co, dlookup "channelData" m = some (Json.obj co) →
      (dlookup "notification" co = none →
        dlookup "channelData" r.sent =
          some (Json.obj (co ++ [("notification", Json.obj [("alert", Json.str "true")])]))) ∧
      (∀ no, dlookup "notification" co = some (Json.obj no) →
        dlookup "channelData" r.sent =
          some (Json.obj (setKey co "notification"
            (Json.obj (sd no "alert" (Json.str "true"))))))) := by
  obtain ⟨hf, hjm⟩ := send_custom_json_spec bot recipient_id m r h
  obtain ⟨ro, co, no, h1, h2, h3, hd⟩ := fill_defaults_spec bot recipient_id m r.sent hf
  refine ⟨hjm.symm, ?_, ?_, ?_, ?_, ?_, ?_, ?_⟩
  · rw [hd, fd_final_type]
  · rw [hd, fd_final_from]
  · rw [hd, fd_final_text]
  · intro hrec
    rcases asObj_recV m ro h1 with ⟨hn, hro⟩ | hsome
    · subst hro
      rw [hd, fd_final_recipient]
      rfl
    · rw [hsome] at hrec
      cases hrec
  · intro ro2 hrec
    rcases asObj_recV m ro h1 with ⟨hn, hro⟩ | hsome
    · rw [hn] at hrec
      cases hrec
    · obtain rfl : ro = ro2 := Json.obj.inj (Option.some.inj (hsome.symm.trans hrec))
      rw [hd, fd_final_recipient]
  · intro hcd
    rcases asObj_cdV bot recipient_id m ro co h2 with ⟨hn, hco⟩ | hsome
    · subst hco
      rcases asObj_ntV [] no h3 with ⟨hn2, hno⟩ | habs
      · subst hno
        rw [hd, fd_final_channelData]
        rfl
      · exact Option.noConfusion habs
    · rw [hsome] at hcd
      cases hcd
  · intro co2 hcd
    rcases asObj_cdV bot recipient_id m ro co h2 with ⟨hn, hco⟩ | hsome
    · rw [hn] at hcd
      cases hcd
    · obtain rfl : co = co2 := Json.obj.inj (Option.some.inj (hsome.symm.trans hcd))
      constructor
      · intro hnt
        rcases asObj_ntV co no h3 with ⟨hn2, hno⟩ | habs
        · subst hno
          rw [hd, fd_final_channelData]
          have hsd : fd_ntD co = co ++ [("notification", Json.obj [])] := by
            unfold fd_ntD sd
            rw [hnt]
          rw [hsd, setKey_append_of_absent co "notification" _ _ hnt]
          rfl
        · rw [hnt] at habs
          cases habs
      · intro no2 hnt
        rcases asObj_ntV co no h3 with ⟨hn2, hno⟩ | habs
        · rw [hn2] at hnt
          cases hnt
        · obtain rfl : no = no2 := Json.obj.inj (Option.some.inj (habs.symm.trans hnt))
          rw [hd, fd_final_channelData]
          have hsd : fd_ntD co = co := by
            unfold fd_ntD sd
            rw [habs]
          rw [hsd]

/-- Witness for C7 on the example of the claim: a dict holding only a text
entry gains type, recipient, from and channelData and keeps its text. -/
theorem C7_custom_json_defaults_witness :
    send_custom_json (Json.str "B") "u1" [("text", Json.str "hi")] =
      some { json_message :=
               [("text", Json.str "hi"), ("type", Json.str "message"),
                ("recipient", Json.obj [("id", Json.str "u1")]), ("from", Json.str "B"),
                ("channelData", Json.obj [("notification", Json.obj [("alert", Json.str "true")])])]
             sent :=
               [("text", Json.str "hi"), ("type", Json.str "message"),
                ("recipient", Json.obj [("id", Json.str "u1")]), ("from", Json.str "B"),
                ("channelData", Json.obj [("notification", Json.obj [("alert", Json.str "true")])])] } ∧
    dlookup "type"
        [("text", Json.str "hi"), ("type", Json.str "message"),
         ("recipient", Json.obj [("id", Json.str "u1")]), ("from", Json.str "B"),
         ("channelData", Json.obj [("notification", Json.obj [("alert", Json.str "true")])])] =
      some (Json.str "message") ∧
    dlookup "from"
        [("text", Json.str "hi"), ("type", Json.str "message"),
         ("recipient", Json.obj [("id", Json.str "u1")]), ("from", Json.str "B"),
         ("channelData", Json.obj [("notification", Json.obj [("alert", Json.str "true")])])] =
      some (Json.str "B") ∧
    dlookup "text"
        [("text", Json.str "hi"), ("type", Json.str "message"),
         ("recipient", Json.obj [("id", Json.str "u1")]), ("from", Json.str "B"),
         ("channelData", Json.obj [("notification", Json.obj [("alert", Json.str "true")])])] =
      some (Json.str "hi") ∧
    dlookup "recipient"
        [("text", Json.str "hi"), ("type", Json.str "message"),
         ("recipient", Json.obj [("id", Json.str "u1")]), ("from", Json.str "B"),
         ("channelData", Json.obj [("notification", Json.obj [("alert", Json.str "true")])])] =
      some (Json.obj [("id", Json.str "u1")]) := by
  have h := C7_custom_json_defaults (Json.str "B") "u1" [("text", Json.str "hi")]
    { json_message :=
        [("text", Json.str "hi"), ("type", Json.str "message"),
         ("recipient", Json.obj [("id", Json.str "u1")]), ("from", Json.str "B"),
         ("channelData", Json.obj [("notification", Json.obj [("alert", Json.str "true")])])]
      sent :=
        [("text", Json.str "hi"), ("type", Json.str "message"),
         ("recipient", Json.obj [("id", Json.str "u1")]), ("from", Json.str "B"),
         ("channelData", Json.obj [("notification", Json.obj [("alert", Json.str "true")])])] }
    rfl
  exact ⟨rfl, h.2.1, h.2.2.1, h.2.2.2.1, h.2.2.2.2.1 rfl⟩

/-- C10: successful send_custom_json leaves the caller argument equal to
the payload it delivered (the same object, mutated in place, no copy), and
that post-call argument now carries the type, recipient.id, from,
channelData.notification.alert and text fields. -/
theorem C10_custom_json_mutation (bot : Json) (recipient_id : String) (m : Dict)
    (r : SendCustomResult) (h : send_custom_json bot recipient_id m = some r) :
    r.json_message = r.sent ∧
    (dlookup "type" r.json_message).isSome = true ∧
    (recipient_id_path r.json_message).isSome = true ∧
    (dlookup "from" r.json_message).isSome = true ∧
    (alert_path r.json_message).isSome = true ∧
    (dlookup "text" r.json_message).isSome = true := by
  obtain ⟨hf, hjm⟩ := send_custom_json_spec bot recipient_id m r h
  obtain ⟨ro, co, no, h1, h2, h3, hd⟩ := fill_defaults_spec bot recipient_id m r.sent hf
  rw [hjm, hd]
  refine ⟨rfl, ?_, ?_, ?_, ?_, ?_⟩
  · rw [fd_final_type]; rfl
  · unfold recipient_id_path
    rw [fd_final_recipient]
    simp [dlookup_sd_self]
  · rw [fd_final_from]; rfl
  · unfold alert_path
    rw [fd_final_channelData]
    have hnot : dlookup "notification"
        (setKey (fd_ntD co) "notification" (Json.obj (sd no "alert" (Json.str "true")))) =
        some (Json.obj (sd no "alert" (Json.str "true"))) :=
      dlookup_setKey_self _ "notification" _ (sd_isSome co "notification" (Json.obj []))
    simp [hnot, dlookup_sd_self]
  · rw [fd_final_text]; rfl

/-- Witness for C10 on the empty dict. -/
theorem C10_custom_json_mutation_witness :
    ({ json_message :=
         [("type", Json.str "message"), ("recipient", Json.obj [("id", Json.str "u2")]),
          ("from", Json.str "B"),
          ("channelData", Json.obj [("notification", Json.obj [("alert", Json.str "true")])]),
          ("text", Json.str "")]
       sent :=
         [("type", Json.str "message"), ("recipient", Json.obj [("id", Json.str "u2")]),
          ("from", Json.str "B"),
          ("channelData", Json.obj [("notification", Json.obj [("alert", Json.str "true")])]),
          ("text", Json.str "")] } : SendCustomResult).json_message =
      [("type", Json.str "message"), ("recipient", Json.obj [("id", Json.str "u2")]),
       ("from", Json.str "B"),
       ("channelData", Json.obj [("notification", Json.obj [("alert", Json.str "true")])]),
       ("text", Json.str "")] ∧
    (dlookup "type"
        [("type", Json.str "message"), ("recipient", Json.obj [("id", Json.str "u2")]),
         ("from", Json.str "B"),
         ("channelData", Json.obj [("notification", Json.obj [("alert", Json.str "true")])]),
         ("text", Json.str "")]).isSome = true ∧
    (recipient_id_path
        [("type", Json.str "message"), ("recipient", Json.obj [("id", Json.str "u2")]),
         ("from", Json.str "B"),
         ("channelData", Json.obj [("notification", Json.obj [("alert", Json.str "true")])]),
         ("text", Json.str "")]).isSome = true ∧
    (alert_path
        [("type", Json.str "message"), ("recipient", Json.obj [("id", Json.str "u2")]),
         ("from", Json.str "B"),
         ("channelData", Json.obj [("notification", Json.obj [("alert", Json.str "true")])]),
         ("text", Json.str "")]).isSome = true := by
  have h := C10_custom_json_mutation (Json.str "B") "u2" []
    { json_message :=
        [("type", Json.str "message"), ("recipient", Json.obj [("id", Json.str "u2")]),
         ("from", Json.str "B"),
         ("channelData", Json.obj [("notification", Json.obj [("alert", Json.str "true")])]),
         ("text", Json.str "")]
      sent :=
        [("type", Json.str "message"), ("recipient", Json.obj [("id", Json.str "u2")]),
         ("from", Json.str "B"),
         ("channelData", Json.obj [("notification", Json.obj [("alert", Json.str "true")])]),
         ("text", Json.str "")] }
    rfl
  exact ⟨rfl, h.2.1, h.2.2.1, h.2.2.2.2.1⟩
